import Mathlib

/-!
Shallow embedding of the SafeDesk AI violation detection and enforcement
pipeline (src/safedesk_final.py).

The embedding covers:
* the per-frame debounce / cooldown logic of SafeDeskApp.update_frame
  (lines 273 to 283),
* the violation recorder SafeDeskApp.save_violation (lines 290 to 312),
  including the enforcement dispatch at its tail (lines 309 to 312) and the
  log refresh SafeDeskApp.refresh_logs (lines 314 to 323),
* the start / stop transitions SafeDeskApp.start_monitoring (lines 208
  to 232) and SafeDeskApp.stop_monitoring (lines 241 to 251).

Timestamps (Python time.time floats) are modelled as rationals; the
violations table is a list of rows, newest first, so that an insert is a
cons and the SQL query ORDER BY id DESC LIMIT 10 of refresh_logs is a
List.take 10.  External effects (cv2.imwrite, camera open, the
LockWorkStation call) are modelled by explicit Boolean outcome parameters.
-/

namespace SafeDesk

/-- Pipeline configuration, from SafeDeskApp.__init__ (lines 73 to 74):
alert_cooldown_seconds = 10 and required_streak = 3. -/
structure PipelineConfig where
  required_streak : Nat
  cooldown_seconds : ℚ
deriving DecidableEq, Repr

/-- Mutable per-pipeline detection state: detect_streak (line 75) and
last_alert_time (line 77). -/
structure PipelineState where
  detect_streak : Nat
  last_alert_time : ℚ
deriving DecidableEq, Repr

/-- Initial value of last_alert_time (line 77: self.last_alert_time = 0.0).
The code has no distinguished "never" value; 0.0 plays that role. -/
def lastAlertInit : ℚ := 0

/-- Default configuration of SafeDeskApp.__init__: required_streak = 3,
alert_cooldown_seconds = 10. -/
def defaultConfig : PipelineConfig := ⟨3, 10⟩

/-- Streak update of update_frame lines 273 to 276: increment on a detected
frame, reset to 0 otherwise. -/
def debounceUpdate (detected : Bool) (streak : Nat) : Nat :=
  if detected then streak + 1 else 0

/-- The debounce gate fires when the updated streak reaches required_streak
(line 278: if self.detect_streak >= self.required_streak). -/
def debounceFired (cfg : PipelineConfig) (s : PipelineState) (detected : Bool) : Bool :=
  decide (cfg.required_streak ≤ debounceUpdate detected s.detect_streak)

/-- The cooldown test of update_frame line 280:
now - self.last_alert_time >= self.alert_cooldown_seconds. -/
def cooldownOk (cfg : PipelineConfig) (s : PipelineState) (now : ℚ) : Bool :=
  decide (cfg.cooldown_seconds ≤ now - s.last_alert_time)

/-- One iteration of the detection block of update_frame (lines 273 to 283)
on state s with per-frame detection flag and clock value now.  Returns the
new state and whether a violation save was admitted this frame (line 282
schedules save_violation exactly when the cooldown test passes).  On an
admitted fire the code sets last_alert_time = now (line 281) and resets
detect_streak to 0 (line 283); a rejected fire changes neither. -/
def stepFrame (cfg : PipelineConfig) (s : PipelineState) (detected : Bool) (now : ℚ) :
    PipelineState × Bool :=
  let streak := debounceUpdate detected s.detect_streak
  if debounceFired cfg s detected then
    if cooldownOk cfg s now then
      (⟨0, now⟩, true)
    else
      (⟨streak, s.last_alert_time⟩, false)
  else
    (⟨streak, s.last_alert_time⟩, false)

/-- The cooldown gate of update_frame lines 279 to 281, isolated: given the
configured cooldown, the stored last_alert_time and the current clock,
return whether the event is admitted together with the new last_alert_time
(set to now on admission, unchanged on rejection). -/
def cooldownGate (cooldown_seconds last_alert_time now : ℚ) : Bool × ℚ :=
  if cooldown_seconds ≤ now - last_alert_time then (true, now)
  else (false, last_alert_time)

/-- One row of the violations table (lines 46 to 48); the autoincrement id
is represented by the position in the store's newest-first row list. -/
structure Violation where
  timestamp : String
  employee_name : String
  object_detected : String
  image_path : String
deriving DecidableEq, Repr

/-- The violations table, rows newest first (so ORDER BY id DESC is the
identity on the list order and an insert is a cons at the head). -/
structure Store where
  rows : List Violation
deriving DecidableEq, Repr

/-- Evidence directory contents: the set of paths that exist on disk,
as queried by os.path.exists (line 302). -/
structure FileSystem where
  files : List String
deriving DecidableEq, Repr

/-- os.path.exists on the modelled file system. -/
def pathExists (fs : FileSystem) (p : String) : Bool := fs.files.contains p

/-- cv2.imwrite (line 300), modelled by its outcome: on success the file
appears at the given path, on failure the file system is unchanged. -/
def imwriteModel (ok : Bool) (p : String) (fs : FileSystem) : FileSystem :=
  if ok then ⟨p :: fs.files⟩ else fs

/-- The action_mode setting (line 76 and the option menu values
"Log Only", "Warn", "Lock"). -/
inductive ActionMode where
  | logOnly
  | warn
  | lock
deriving DecidableEq, Repr

/-- The external effect requested by the dispatch tail of save_violation
(lines 309 to 312): a warning box for Warn, a LockWorkStation request for
Lock, nothing for Log Only. -/
inductive DispatchAction where
  | noAction
  | warnBox
  | lockRequest
deriving DecidableEq, Repr

/-- Which external action the dispatch tail requests for each mode. -/
def dispatchAction (mode : ActionMode) : DispatchAction :=
  match mode with
  | .logOnly => .noAction
  | .warn => .warnBox
  | .lock => .lockRequest

/-- Effect of the dispatch tail of save_violation (lines 309 to 312) on the
violations store.  The warning box and the ctypes LockWorkStation call never
touch the database, whatever the mode and whatever the outcome of the lock
request, so the store passes through unchanged. -/
def dispatchStore (_mode : ActionMode) (_lockSucceeded : Bool) (st : Store) : Store := st

/-- The per-call inputs of save_violation computed at lines 291 to 298:
the formatted timestamp, the employee id from os.getlogin (or "Unknown"),
and the evidence image path. -/
structure RecordInput where
  timestamp_str : String
  employee_id : String
  img_name : String
deriving DecidableEq, Repr

/-- The row inserted by save_violation (lines 303 to 305). -/
def newRow (inp : RecordInput) : Violation :=
  ⟨inp.timestamp_str, inp.employee_id, "Mobile Phone", inp.img_name⟩

/-- save_violation (lines 290 to 312): attempt the image write; if the file
exists afterwards (line 302), insert one row and commit (lines 303 to 306),
schedule the log refresh (line 307), then run the dispatch tail (lines 309
to 312).  If the file does not exist, nothing further happens.  Returns the
file system, the store, and whether a row was inserted. -/
def save_violation (mode : ActionMode) (imwriteOk lockSucceeded : Bool)
    (inp : RecordInput) (fs : FileSystem) (st : Store) : FileSystem × Store × Bool :=
  let fs2 := imwriteModel imwriteOk inp.img_name fs
  if pathExists fs2 inp.img_name then
    (fs2, dispatchStore mode lockSucceeded ⟨newRow inp :: st.rows⟩, true)
  else
    (fs2, st, false)

/-- refresh_logs (lines 314 to 323): read the ten most recent rows
(SELECT timestamp, employee_name, object_detected ORDER BY id DESC
LIMIT 10). -/
def refresh_logs (st : Store) : List (String × String × String) :=
  (st.rows.take 10).map fun v => (v.timestamp, v.employee_name, v.object_detected)

/-- One frame iteration combined with the save_violation call it schedules
(line 282): when the step admits a violation, save_violation runs against
the current file system and store. -/
def stepFrameFull (cfg : PipelineConfig) (mode : ActionMode)
    (imwriteOk lockSucceeded : Bool) (inp : RecordInput) (s : PipelineState)
    (detected : Bool) (now : ℚ) (fs : FileSystem) (st : Store) :
    PipelineState × FileSystem × Store :=
  let r := stepFrame cfg s detected now
  if r.2 then
    let w := save_violation mode imwriteOk lockSucceeded inp fs st
    (r.1, w.1, w.2.1)
  else
    (r.1, fs, st)

/-- Application-level state for the start / stop transitions: the
monitoring flag (line 68), detect_streak (line 75), last_alert_time
(line 77), whether the model is loaded (self.model is not None), whether a
load is in flight (self.model_loading), and whether a capture handle is
held (self.cap is not None). -/
structure AppState where
  monitoring : Bool
  detect_streak : Nat
  last_alert_time : ℚ
  modelLoaded : Bool
  modelLoading : Bool
  capHandle : Bool
deriving DecidableEq, Repr

/-- Outcome of a start command (start_monitoring, lines 208 to 232). -/
inductive StartOutcome where
  | modelStillLoading
  | modelLoadFailed
  | started
  | cameraError
  | alreadyRunning
deriving DecidableEq, Repr

/-- The two outcomes in which the detector is not ready (self.model is
None at line 210): the model is still loading, or its load failed. -/
def StartOutcome.notReady : StartOutcome → Bool
  | .modelStillLoading => true
  | .modelLoadFailed => true
  | _ => false

/-- start_monitoring (lines 208 to 232).  If the model is not loaded, show
a message and return without touching any state (lines 210 to 216).
Otherwise, if not already monitoring, set monitoring, reset detect_streak
to 0, create the capture handle, and spawn the worker thread exactly when
the camera opens; on camera failure clear monitoring again (lines 218 to
232).  If already monitoring, nothing happens.  camOpens models
cap.isOpened() (line 227).  Returns the new state, the outcome, and
whether a capture-loop thread was spawned. -/
def start_monitoring (camOpens : Bool) (s : AppState) : AppState × StartOutcome × Bool :=
  if s.modelLoaded = false then
    if s.modelLoading then (s, .modelStillLoading, false)
    else (s, .modelLoadFailed, false)
  else if s.monitoring = false then
    if camOpens then
      ({ s with monitoring := true, detect_streak := 0, capHandle := true },
        .started, true)
    else
      ({ s with monitoring := false, detect_streak := 0, capHandle := true },
        .cameraError, false)
  else
    (s, .alreadyRunning, false)

/-- stop_monitoring (lines 241 to 251): clear the monitoring flag, reset
detect_streak to 0, release and drop the capture handle.  last_alert_time
and the model fields are untouched. -/
def stop_monitoring (s : AppState) : AppState :=
  { s with monitoring := false, detect_streak := 0, capHandle := false }

/-! ## Helper lemmas -/

/-- If a frame step admits a violation, the resulting state has streak 0 and
last_alert_time equal to the current clock (lines 281 and 283). -/
theorem stepFrame_admit_eq (cfg : PipelineConfig) (s : PipelineState)
    (detected : Bool) (now : ℚ) (h : (stepFrame cfg s detected now).2 = true) :
    stepFrame cfg s detected now = (⟨0, now⟩, true) := by
  unfold stepFrame at h ⊢
  split_ifs at h ⊢
  all_goals simp_all

/-- A frame step admits only when the cooldown test passes. -/
theorem stepFrame_no_admit_of_cooldown (cfg : PipelineConfig) (s : PipelineState)
    (detected : Bool) (now : ℚ) (h : cooldownOk cfg s now = false) :
    (stepFrame cfg s detected now).2 = false := by
  unfold stepFrame
  split_ifs with h1 h2
  · rw [h2] at h; exact absurd h (by simp)
  · rfl
  · rfl

/-- A frame step admits a violation exactly when the debounce gate fires
and the cooldown test passes. -/
theorem stepFrame_record_iff (cfg : PipelineConfig) (s : PipelineState)
    (detected : Bool) (now : ℚ) :
    (stepFrame cfg s detected now).2 = true ↔
      debounceFired cfg s detected = true ∧ cooldownOk cfg s now = true := by
  unfold stepFrame
  split_ifs with h1 h2
  all_goals simp_all

/-! ## Claims -/

/-- C1 counterexample.  The claim states that the debounce gate fires iff
the most recent required_streak calls were all true, and that every fire
resets the consecutive-hits counter to 0.  Both parts fail on the code.
First conjunct: with required_streak = 2 and cooldown 0, two detected
frames at clocks 0 and 1 produce an admitted fire that resets the streak,
so a third detected frame does not fire even though the two most recent
calls were both true — refuting the "if" direction of the iff.  Remaining
conjuncts: with required_streak = 3 and cooldown 10, a fire from state
(streak 2, last_alert_time 0) at clock 5 is rejected by the cooldown and
leaves the counter at 3, not 0 — refuting the reset clause. -/
theorem c1_counterexample :
    debounceFired ⟨2, 0⟩
        ((stepFrame ⟨2, 0⟩ ((stepFrame ⟨2, 0⟩ ⟨0, 0⟩ true 0).1) true 1).1) true = false
    ∧ debounceFired ⟨3, 10⟩ ⟨2, 0⟩ true = true
    ∧ (stepFrame ⟨3, 10⟩ ⟨2, 0⟩ true 5).1.detect_streak = 3 := by
  refine ⟨?_, ?_, ?_⟩ <;>
    norm_num [stepFrame, debounceFired, debounceUpdate, cooldownOk]

/-- C1 (amended): for required_streak ≥ 1, the debounce gate fires iff the
current frame is detected and the stored counter plus one reaches
required_streak; and the counter is reset to 0 exactly when the frame is
not detected or the fire is admitted by the cooldown gate (a
cooldown-rejected fire leaves the counter at its incremented value). -/
theorem debounce_fire_and_reset (cfg : PipelineConfig) (s : PipelineState)
    (detected : Bool) (now : ℚ) (hk : 1 ≤ cfg.required_streak) :
    (debounceFired cfg s detected = true ↔
      detected = true ∧ cfg.required_streak ≤ s.detect_streak + 1)
    ∧ ((stepFrame cfg s detected now).1.detect_streak = 0 ↔
      detected = false
        ∨ (debounceFired cfg s detected = true ∧ cooldownOk cfg s now = true)) := by
  constructor
  · cases detected
    all_goals simp [debounceFired, debounceUpdate]
    all_goals omega
  · cases detected
    all_goals simp only [stepFrame, debounceUpdate, Bool.false_eq_true, if_false, if_true]
    all_goals split_ifs with h1 h2
    all_goals simp_all [debounceFired, debounceUpdate]

/-- Witness for the C1 amended theorem at the default configuration
(required_streak 3, cooldown 10): from streak 2 a detected frame fires,
and at clock 5 with last_alert_time 0 the rejected fire leaves a nonzero
counter. -/
theorem debounce_fire_and_reset_witness :
    debounceFired defaultConfig ⟨2, 0⟩ true = true
    ∧ (stepFrame defaultConfig ⟨2, 0⟩ true 5).1.detect_streak ≠ 0 := by
  have h := debounce_fire_and_reset defaultConfig ⟨2, 0⟩ true 5 (by norm_num [defaultConfig])
  refine ⟨h.1.mpr ⟨rfl, by norm_num [defaultConfig]⟩, fun hz => ?_⟩
  rcases h.2.mp hz with h0 | ⟨_, hc⟩
  · exact Bool.noConfusion h0
  · norm_num [cooldownOk, defaultConfig] at hc

/-- C2 counterexample.  The claim admits an event whenever last_alert_time
is "never"; in the code "never" is the initial value 0.0 (line 77) with no
special treatment, so with cooldown 10 a call at clock 5 against the
initial value is rejected and the state left unchanged, contradicting the
claimed admission. -/
theorem c2_counterexample :
    (cooldownGate 10 lastAlertInit 5).1 = false
    ∧ (cooldownGate 10 lastAlertInit 5).2 = lastAlertInit
    ∧ lastAlertInit = 0 := by
  norm_num [cooldownGate, lastAlertInit]

/-- C2 (amended): the cooldown gate admits and sets last_alert_time = now
iff now - last_alert_time ≥ cooldown_seconds (the initial value 0.0 that
encodes "never" receives no special treatment); otherwise it rejects and
leaves the state unchanged.  Consequently, after an admission at t1, a call
at t2 is rejected when t2 - t1 < cooldown_seconds and admitted when
t2 - t1 ≥ cooldown_seconds. -/
theorem cooldown_gate_spec (c last t1 t2 : ℚ) :
    ((cooldownGate c last t1).1 = true ↔ c ≤ t1 - last)
    ∧ ((cooldownGate c last t1).1 = true → (cooldownGate c last t1).2 = t1)
    ∧ ((cooldownGate c last t1).1 = false → cooldownGate c last t1 = (false, last))
    ∧ ((cooldownGate c last t1).1 = true →
        (t2 - t1 < c → (cooldownGate c (cooldownGate c last t1).2 t2).1 = false)
        ∧ (c ≤ t2 - t1 → (cooldownGate c (cooldownGate c last t1).2 t2).1 = true)) := by
  by_cases h1 : c ≤ t1 - last
  · refine ⟨by simp [cooldownGate, h1], fun _ => by simp [cooldownGate, h1],
      fun hf => ?_, fun _ => ⟨fun hlt => ?_, fun hge => ?_⟩⟩
    · simp [cooldownGate, h1] at hf
    · have hn : ¬ c ≤ t2 - t1 := by linarith
      simp [cooldownGate, h1, hn]
    · simp [cooldownGate, h1, hge]
  · refine ⟨by simp [cooldownGate, h1], fun ht => ?_,
      fun _ => by simp [cooldownGate, h1], fun ht => ?_⟩ <;>
      simp [cooldownGate, h1] at ht

/-- Witness for the C2 amended theorem: cooldown 10, initial
last_alert_time 0; an event at clock 15 is admitted, after which an event
at clock 20 is rejected. -/
theorem cooldown_gate_spec_witness :
    (cooldownGate 10 0 15).1 = true
    ∧ (cooldownGate 10 (cooldownGate 10 0 15).2 20).1 = false := by
  have h := cooldown_gate_spec 10 0 15 20
  have h1 : (cooldownGate 10 0 15).1 = true := h.1.mpr (by norm_num)
  exact ⟨h1, (h.2.2.2 h1).1 (by norm_num)⟩

/-- C3: if the evidence image file does not exist after the write attempt,
save_violation inserts no row — the store is unchanged (and in particular
its row count is unchanged) and the call reports no insertion. -/
theorem record_no_row_on_write_failure (mode : ActionMode) (imwriteOk lockOk : Bool)
    (inp : RecordInput) (fs : FileSystem) (st : Store)
    (hfail : pathExists (imwriteModel imwriteOk inp.img_name fs) inp.img_name = false) :
    (save_violation mode imwriteOk lockOk inp fs st).2.1 = st
    ∧ (save_violation mode imwriteOk lockOk inp fs st).2.1.rows.length = st.rows.length
    ∧ (save_violation mode imwriteOk lockOk inp fs st).2.2 = false := by
  simp [save_violation, hfail]

/-- Witness for C3: a failed image write against an empty file system and
empty store leaves the store empty. -/
theorem record_no_row_on_write_failure_witness :
    (save_violation .logOnly false false ⟨"2025-01-01 10:00:00", "user", "v.jpg"⟩
      ⟨[]⟩ ⟨[]⟩).2.1 = (⟨[]⟩ : Store) :=
  (record_no_row_on_write_failure .logOnly false false
    ⟨"2025-01-01 10:00:00", "user", "v.jpg"⟩ ⟨[]⟩ ⟨[]⟩ rfl).1

/-- C4: a successful save_violation call (one that reports an inserted row)
adds exactly one new row at the head of the store, leaves an evidence file
on disk at the path stored in that row, and the new row is immediately
visible in the recent-violations log refresh. -/
theorem record_success_one_row_and_evidence (mode : ActionMode)
    (imwriteOk lockOk : Bool) (inp : RecordInput) (fs : FileSystem) (st : Store)
    (hsucc : (save_violation mode imwriteOk lockOk inp fs st).2.2 = true) :
    (save_violation mode imwriteOk lockOk inp fs st).2.1.rows = newRow inp :: st.rows
    ∧ (save_violation mode imwriteOk lockOk inp fs st).2.1.rows.length
        = st.rows.length + 1
    ∧ pathExists (save_violation mode imwriteOk lockOk inp fs st).1
        (newRow inp).image_path = true
    ∧ ((newRow inp).timestamp, (newRow inp).employee_name, (newRow inp).object_detected)
        ∈ refresh_logs (save_violation mode imwriteOk lockOk inp fs st).2.1 := by
  by_cases h : pathExists (imwriteModel imwriteOk inp.img_name fs) inp.img_name = true
  · simp [save_violation, h, dispatchStore, refresh_logs, newRow]
  · simp [save_violation, h] at hsucc

/-- Witness for C4: a successful image write against an empty file system
and a one-row store yields a two-row store. -/
theorem record_success_one_row_and_evidence_witness :
    (save_violation .warn true false ⟨"2025-01-01 10:00:00", "user", "v.jpg"⟩
        ⟨[]⟩ ⟨[⟨"t0", "u0", "Mobile Phone", "old.jpg"⟩]⟩).2.1.rows.length = 2 := by
  have h := record_success_one_row_and_evidence .warn true false
    ⟨"2025-01-01 10:00:00", "user", "v.jpg"⟩ ⟨[]⟩
    ⟨[⟨"t0", "u0", "Mobile Phone", "old.jpg"⟩]⟩
    (by simp [save_violation, imwriteModel, pathExists])
  exact h.2.1

/-- C5: the enforcement dispatch can never lose a recorded violation: the
dispatch tail of save_violation leaves any store unchanged for every action
mode and every lock outcome, and on a successful recording the store handed
to dispatch already contains the new row, so the final store equals the
dispatch applied to the already-persisted insert. -/
theorem dispatch_preserves_store (mode : ActionMode) (lockOk imwriteOk : Bool)
    (inp : RecordInput) (fs : FileSystem) (st : Store) :
    (∀ st2 : Store, dispatchStore mode lockOk st2 = st2)
    ∧ ((save_violation mode imwriteOk lockOk inp fs st).2.2 = true →
        newRow inp ∈ (Store.mk (newRow inp :: st.rows)).rows
        ∧ (save_violation mode imwriteOk lockOk inp fs st).2.1
            = dispatchStore mode lockOk ⟨newRow inp :: st.rows⟩) := by
  refine ⟨fun st2 => rfl, fun hsucc => ⟨List.mem_cons_self _ _, ?_⟩⟩
  by_cases h : pathExists (imwriteModel imwriteOk inp.img_name fs) inp.img_name = true
  · simp [save_violation, h]
  · simp [save_violation, h] at hsucc

/-- Witness for C5 at a successful recording with Lock mode and a failed
lock outcome: the final store still holds the new row. -/
theorem dispatch_preserves_store_witness :
    (save_violation .lock true false ⟨"2025-01-01 10:00:00", "user", "v.jpg"⟩
        ⟨[]⟩ ⟨[]⟩).2.1
      = dispatchStore .lock false ⟨[newRow ⟨"2025-01-01 10:00:00", "user", "v.jpg"⟩]⟩ := by
  have h := dispatch_preserves_store .lock false true
    ⟨"2025-01-01 10:00:00", "user", "v.jpg"⟩ ⟨[]⟩ ⟨[]⟩
  exact (h.2 (by simp [save_violation, imwriteModel, pathExists])).2

/-- C6 counterexample.  The claim states that a successful start resets the
whole PipelineState, last_alert_time included.  On the code, starting from
a stopped state with a loaded model, last_alert_time 42 and a camera that
opens, the start succeeds but last_alert_time remains 42 instead of being
reset to the initial value 0. -/
theorem c6_counterexample :
    (start_monitoring true ⟨false, 5, 42, true, false, false⟩).2.1
        = StartOutcome.started
    ∧ (start_monitoring true ⟨false, 5, 42, true, false, false⟩).1.last_alert_time = 42
    ∧ (42 : ℚ) ≠ lastAlertInit := by
  refine ⟨rfl, rfl, ?_⟩
  norm_num [lastAlertInit]

/-- C6 (amended): a start command succeeds only when the model is loaded;
if the model is not loaded the start fails with a detector-not-ready
outcome, does not spawn a capture loop and leaves the state unchanged; on a
successful start the pipeline transitions to monitoring and only
detect_streak is reset to 0 — last_alert_time is preserved. -/
theorem start_monitoring_spec (camOpens : Bool) (s : AppState) :
    (s.modelLoaded = false →
      (start_monitoring camOpens s).1 = s
      ∧ ((start_monitoring camOpens s).2.1).notReady = true
      ∧ (start_monitoring camOpens s).2.2 = false)
    ∧ ((start_monitoring camOpens s).2.1 = StartOutcome.started →
      s.modelLoaded = true
      ∧ s.monitoring = false
      ∧ (start_monitoring camOpens s).1.monitoring = true
      ∧ (start_monitoring camOpens s).1.detect_streak = 0
      ∧ (start_monitoring camOpens s).1.last_alert_time = s.last_alert_time) := by
  unfold start_monitoring
  rcases s with ⟨mon, streak, last, loaded, loading, cap⟩
  cases loaded <;> cases loading <;> cases mon <;> cases camOpens <;>
    simp [StartOutcome.notReady]

/-- Witness for the C6 amended theorem: a successful start from a stopped
state with streak 7 and last_alert_time 42 yields monitoring with streak 0
and last_alert_time still 42. -/
theorem start_monitoring_spec_witness :
    (start_monitoring true ⟨false, 7, 42, true, false, false⟩).1.detect_streak = 0
    ∧ (start_monitoring true ⟨false, 7, 42, true, false, false⟩).1.last_alert_time = 42 := by
  have h := (start_monitoring_spec true ⟨false, 7, 42, true, false, false⟩).2 rfl
  exact ⟨h.2.2.2.1, h.2.2.2.2⟩

/-- C7: a stop command clears the monitoring flag, resets detect_streak to
0 and releases the capture handle, while leaving last_alert_time unchanged,
so the cooldown is preserved across a stop followed by a restart. -/
theorem stop_monitoring_spec (s : AppState) :
    (stop_monitoring s).monitoring = false
    ∧ (stop_monitoring s).detect_streak = 0
    ∧ (stop_monitoring s).capHandle = false
    ∧ (stop_monitoring s).last_alert_time = s.last_alert_time := by
  simp [stop_monitoring]

/-- C8: a second start command while monitoring is already running is a
no-op: the application state is returned unchanged and no second capture
loop thread is spawned. -/
theorem start_noop_when_running (camOpens : Bool) (s : AppState)
    (h : s.monitoring = true) :
    (start_monitoring camOpens s).1 = s
    ∧ (start_monitoring camOpens s).2.2 = false := by
  unfold start_monitoring
  rcases s with ⟨mon, streak, last, loaded, loading, cap⟩
  simp only at h
  subst h
  cases loaded <;> cases loading <;> simp

/-- Witness for C8: a second start against a running state with streak 2
and last_alert_time 30 changes nothing and spawns no thread. -/
theorem start_noop_when_running_witness :
    (start_monitoring true ⟨true, 2, 30, true, false, true⟩).1
        = ⟨true, 2, 30, true, false, true⟩
    ∧ (start_monitoring true ⟨true, 2, 30, true, false, true⟩).2.2 = false :=
  start_noop_when_running true ⟨true, 2, 30, true, false, true⟩ rfl

/-- C9: a debounce fire rejected by the cooldown gate does not reset the
streak counter (it keeps its incremented value) and leaves last_alert_time
unchanged; the very next detected frame fires again, and that fire is
admitted exactly when the clock current at that time clears the unchanged
last_alert_time by cooldown_seconds. -/
theorem cooldown_rejection_keeps_streak (cfg : PipelineConfig) (s : PipelineState)
    (now now2 : ℚ)
    (hfire : debounceFired cfg s true = true)
    (hrej : cooldownOk cfg s now = false) :
    (stepFrame cfg s true now).1.detect_streak = s.detect_streak + 1
    ∧ (stepFrame cfg s true now).1.last_alert_time = s.last_alert_time
    ∧ debounceFired cfg (stepFrame cfg s true now).1 true = true
    ∧ ((stepFrame cfg (stepFrame cfg s true now).1 true now2).2 = true ↔
        cfg.cooldown_seconds ≤ now2 - s.last_alert_time) := by
  have hstep : stepFrame cfg s true now
      = (⟨s.detect_streak + 1, s.last_alert_time⟩, false) := by
    simp [stepFrame, hfire, hrej, debounceUpdate]
  rw [hstep]
  have hfire2 : debounceFired cfg ⟨s.detect_streak + 1, s.last_alert_time⟩ true = true := by
    simp [debounceFired, debounceUpdate] at hfire ⊢
    omega
  refine ⟨rfl, rfl, hfire2, ?_⟩
  rw [stepFrame_record_iff]
  simp [hfire2, cooldownOk]

/-- Witness for C9 at the default configuration: from streak 2 with
last_alert_time 0, a detected frame at clock 5 fires but is rejected
(5 < 10), leaving streak 3; the next detected frame at clock 12 is
admitted since 12 - 0 ≥ 10. -/
theorem cooldown_rejection_keeps_streak_witness :
    (stepFrame defaultConfig ⟨2, 0⟩ true 5).1.detect_streak = 3
    ∧ (stepFrame defaultConfig (stepFrame defaultConfig ⟨2, 0⟩ true 5).1 true 12).2
        = true := by
  have h := cooldown_rejection_keeps_streak defaultConfig ⟨2, 0⟩ 5 12
    (by norm_num [debounceFired, debounceUpdate, defaultConfig])
    (by norm_num [cooldownOk, defaultConfig])
  exact ⟨h.1, h.2.2.2.mpr (by norm_num [defaultConfig])⟩

/-- C10: when a frame step admits a violation, last_alert_time is advanced
to the current clock regardless of how the scheduled recording turns out;
so if the evidence write fails and no row is inserted, the store is
unchanged, yet any frame within cooldown_seconds of the admission cannot be
admitted — a failed recording still consumes the cooldown window. -/
theorem failed_recording_consumes_cooldown (cfg : PipelineConfig) (mode : ActionMode)
    (imwriteOk lockOk : Bool) (inp : RecordInput) (s : PipelineState)
    (detected detected2 : Bool) (now now2 : ℚ) (fs : FileSystem) (st : Store)
    (hadm : (stepFrame cfg s detected now).2 = true)
    (hfail : pathExists (imwriteModel imwriteOk inp.img_name fs) inp.img_name = false)
    (hwin : now2 - now < cfg.cooldown_seconds) :
    (stepFrameFull cfg mode imwriteOk lockOk inp s detected now fs st).2.2 = st
    ∧ (stepFrameFull cfg mode imwriteOk lockOk inp s detected now fs st).1.last_alert_time
        = now
    ∧ (stepFrame cfg (stepFrameFull cfg mode imwriteOk lockOk inp s detected now fs st).1
        detected2 now2).2 = false := by
  have hs := stepFrame_admit_eq cfg s detected now hadm
  have hfull : stepFrameFull cfg mode imwriteOk lockOk inp s detected now fs st
      = (⟨0, now⟩, imwriteModel imwriteOk inp.img_name fs, st) := by
    simp [stepFrameFull, hs, save_violation, hfail]
  rw [hfull]
  refine ⟨rfl, rfl, ?_⟩
  apply stepFrame_no_admit_of_cooldown
  have hn : ¬ (cfg.cooldown_seconds ≤ now2 - now) := by linarith
  simp [cooldownOk, hn]

/-- Witness for C10 at the default configuration: an admitted fire at clock
15 with a failed image write leaves the store empty, sets last_alert_time
to 15, and a detected frame at clock 20 is not admitted (20 - 15 < 10). -/
theorem failed_recording_consumes_cooldown_witness :
    (stepFrameFull defaultConfig .logOnly false false ⟨"t", "u", "p.jpg"⟩
        ⟨2, 0⟩ true 15 ⟨[]⟩ ⟨[]⟩).2.2 = (⟨[]⟩ : Store)
    ∧ (stepFrameFull defaultConfig .logOnly false false ⟨"t", "u", "p.jpg"⟩
        ⟨2, 0⟩ true 15 ⟨[]⟩ ⟨[]⟩).1.last_alert_time = 15 := by
  have h := failed_recording_consumes_cooldown defaultConfig .logOnly false false
    ⟨"t", "u", "p.jpg"⟩ ⟨2, 0⟩ true true 15 20 ⟨[]⟩ ⟨[]⟩
    (by norm_num [stepFrame, debounceFired, debounceUpdate, cooldownOk, defaultConfig])
    rfl
    (by norm_num [defaultConfig])
  exact ⟨h.1, h.2.1⟩

end SafeDesk
